import Mathlib

/-!
Verification development for the Quickdeck bulk catalog ingestion engine.

The definitions below are shallow embeddings of the Python source:
  * `src/app.py` — the document-oriented ingestion pipeline
    (header normalization, row extraction, xlsx container reader,
    record mapper, row loop with per-row skip and duplicate-SKU skip);
  * `src/catalog_portal/bulk_upload/bulk_upload.py` — the relational
    pipeline (frame validation and the SQL upsert keyed by SKU).

Modelling conventions:
  * Python `str` is Lean `String`; character-level operations work on
    `String.data` so that everything evaluates by `decide` / `rfl`.
  * Python `float`/`Decimal` values are modelled as `ℚ`; the numeral
    parser `pyNum?` covers the plain decimal literals (sign, digits,
    fraction, exponent) that this code base feeds to `float()` and
    `Decimal()`; binary-float rounding is not modelled (all values the
    development evaluates are exactly representable).
  * Python `dict` is an association list built by `dictInsert`, which has
    the assignment semantics of a dict: replace the value in place when
    the key exists, append otherwise (so insertion order of first
    occurrence is kept and later assignments overwrite).
  * The Mongo collection `products_collection` is a `List Product`;
    `find_one {sku_id: s}` is `findBySku`, `insert_one` appends.
  * Timestamp fields (`created_at`, `updated_at`) are omitted from the
    product records; no claim mentions them.
-/

/-- Python whitespace predicate for `str.strip` / `\s` (ASCII range:
space, tab, newline, carriage return, vertical tab, form feed). -/
def pyIsSpace (c : Char) : Bool :=
  c == ' ' || c == '\t' || c == '\n' || c == '\r' || c == Char.ofNat 11 || c == Char.ofNat 12

/-- Drop characters satisfying `p` from both ends of a character list. -/
def stripWhile (p : Char → Bool) (l : List Char) : List Char :=
  ((l.dropWhile p).reverse.dropWhile p).reverse

/-- Python `str.strip()` (no arguments): trim whitespace at both ends. -/
def pyStrip (s : String) : String := ⟨stripWhile pyIsSpace s.data⟩

/-- Python `str.strip(c)` for a single character argument. -/
def pyStripChar (c : Char) (s : String) : String := ⟨stripWhile (· == c) s.data⟩

/-- Python `str.lower()` (ASCII case mapping suffices for this code). -/
def pyLower (s : String) : String := ⟨s.data.map Char.toLower⟩

/-- Python `str.replace(a, b)` for single-character `a`, `b`. -/
def charReplace (a b : Char) (s : String) : String :=
  ⟨s.data.map (fun c => if c == a then b else c)⟩

/-- Helper for Python no-argument `str.split()` and for splitting on a
separator class: cut at characters satisfying `p`, dropping empty pieces
(runs of separators, leading and trailing separators yield nothing). -/
def splitDropAux (p : Char → Bool) : List Char → List Char → List String
  | [], acc => if acc.isEmpty then [] else [⟨acc.reverse⟩]
  | c :: rest, acc =>
    if p c then
      if acc.isEmpty then splitDropAux p rest []
      else (⟨acc.reverse⟩ : String) :: splitDropAux p rest []
    else splitDropAux p rest (c :: acc)

/-- Python `str.split()` with no arguments: split on whitespace runs. -/
def pySplitWs (s : String) : List String := splitDropAux pyIsSpace s.data []

/-- Numeric value of a list of ASCII digits. -/
def digitsToNat (l : List Char) : Nat := l.foldl (fun n c => n * 10 + (c.toNat - 48)) 0

/-- The exact rational value `sgn * mantissa * 10^(exp - scale)`:
the value of a decimal literal with integer-and-fraction mantissa
(`scale` fractional digits) and decimal exponent `exp`.  Phrased with
integer arithmetic and one `mkRat` so that it evaluates inside `decide`. -/
def decimalValue (sgn : ℤ) (mantissa : Nat) (scale : Nat) (exp : ℤ) : ℚ :=
  let e : ℤ := exp - (scale : ℤ)
  if 0 ≤ e then mkRat (sgn * (mantissa : ℤ) * (10 : ℤ) ^ e.toNat) 1
  else mkRat (sgn * (mantissa : ℤ)) ((10 : ℕ) ^ (-e).toNat)

/-- Parser shared by the embeddings of Python `float()` (in
`parse_number`) and `Decimal()` (in `BulkUploader._to_decimal`):
accepts an optional sign, an integer part and/or a fractional part
(at least one digit overall), and an optional decimal exponent; the
result is the exact decimal value as a rational.  Special forms
(`inf`, `nan`, underscores between digits) are outside the inputs this
development evaluates and are rejected; binary-float rounding is not
modelled. -/
def pyNum? (l : List Char) : Option ℚ :=
  let sgnSplit : ℤ × List Char :=
    match l with
    | '+' :: r => (1, r)
    | '-' :: r => (-1, r)
    | _ => (1, l)
  let sgn := sgnSplit.1
  let ipSplit := sgnSplit.2.span Char.isDigit
  let ip := ipSplit.1
  let r1 := ipSplit.2
  let core? : Option (Nat × Nat × List Char) :=
    match r1 with
    | '.' :: r2 =>
      let fpSplit := r2.span Char.isDigit
      let fp := fpSplit.1
      if ip = [] ∧ fp = [] then none
      else some (digitsToNat ip * 10 ^ fp.length + digitsToNat fp, fp.length, fpSplit.2)
    | _ => if ip = [] then none else some (digitsToNat ip, 0, r1)
  match core? with
  | none => none
  | some (mantissa, scale, rest) =>
    match rest with
    | [] => some (decimalValue sgn mantissa scale 0)
    | e :: r2 =>
      if e == 'e' || e == 'E' then
        let esgnSplit : ℤ × List Char :=
          match r2 with
          | '+' :: r => (1, r)
          | '-' :: r => (-1, r)
          | _ => (1, r2)
        let edSplit := esgnSplit.2.span Char.isDigit
        if edSplit.1 = [] ∨ edSplit.2 ≠ [] then none
        else some (decimalValue sgn mantissa scale (esgnSplit.1 * (digitsToNat edSplit.1 : ℤ)))
      else none

/-- Boolean infix test on character lists (the evaluable form of
Python's `needle in hay` substring test). -/
def listIsInfixOf (needle hay : List Char) : Bool :=
  match hay with
  | [] => needle.isEmpty
  | c :: rest => needle.isPrefixOf (c :: rest) || listIsInfixOf needle rest

/-- `needle in hay` on Python strings (substring test). -/
def strContains (hay needle : String) : Bool := listIsInfixOf needle.data hay.data

/-- Python `str.startswith(pre)` (evaluable form). -/
def strStartsWith (s pre : String) : Bool := pre.data.isPrefixOf s.data

/-- Python `str.endswith(suf)` (evaluable form). -/
def strEndsWith (s suf : String) : Bool := suf.data.reverse.isPrefixOf s.data.reverse

/-- Python dict assignment `d[k] = v` on an association list: replace the
value in place if the key is present (keeping its position), append
otherwise.  This is exactly how a dict built by repeated assignment
behaves: first-insertion order, last assignment wins. -/
def dictInsert {α β : Type} [BEq α] : List (α × β) → α → β → List (α × β)
  | [], k, v => [(k, v)]
  | (a, b) :: m, k, v =>
    if a == k then (k, v) :: m else (a, b) :: dictInsert m k v

/-! ## `src/app.py`: header normalization and scalar helpers -/

/-- `BULK_REQUIRED_ATTRIBUTES` from `src/app.py`. -/
def BULK_REQUIRED_ATTRIBUTES : List String :=
  ["SKU", "Product Name", "Description", "Ornamentation", "Occasion",
   "Generic Name", "Size", "Fastening & Back Detail", "Heel Height",
   "Heel Type", "Heel Height (in)", "Insole", "Material", "Sole Material",
   "Pattern", "Type", "Net Quantity", "MRP", "Selling Price",
   "Wrong/Defective Returns Price", "Length Size", "Width Size",
   "Net Weight", "HSN Code", "GST", "Color", "Ankle Height", "Toe Type",
   "COUNTRY OF ORIGIN", "Manufacturer Name", "Manufacturer Address"]

/-- `normalize_bulk_header` from `src/app.py`:
`' '.join(value.replace('\n',' ').replace('\r',' ').strip().lower().split())`. -/
def normalize_bulk_header (value : String) : String :=
  String.intercalate " "
    (pySplitWs (pyLower (pyStrip (charReplace '\r' ' ' (charReplace '\n' ' ' value)))))

/-- `parse_number` from `src/app.py`: strip, drop comma thousands
separators, parse as a float, fall back to `default` on failure. -/
def parse_number (value : String) (default : ℚ) : ℚ :=
  let cleaned := (pyStrip value).data.filter (fun c => ¬ c == ',')
  if cleaned = [] then default
  else (pyNum? cleaned).getD default

/-- Truncation toward zero, the behaviour of Python `int(float)`. -/
def ratTruncToInt (q : ℚ) : ℤ := if 0 ≤ q then q.floor else -((-q).floor)

/-- `parse_int` from `src/app.py`: `int(parse_number(value, default))`. -/
def parse_int (value : String) (default : ℤ) : ℤ :=
  ratTruncToInt (parse_number value (default : ℚ))

/-- Separator class of `split_multi_value`: the regex `[,/|;\n]+`. -/
def isMultiValSep (c : Char) : Bool :=
  c == ',' || c == '/' || c == '|' || c == ';' || c == '\n'

/-- `split_multi_value` from `src/app.py`: strip, split on runs of
comma/slash/pipe/semicolon/newline, trim each part, drop empties.
(`re.split` keeps empty boundary pieces but they are removed by the
empty filter, so cutting with `splitDropAux` gives the same result.) -/
def split_multi_value (raw : String) : List String :=
  let text := pyStrip raw
  if text = "" then []
  else ((splitDropAux isMultiValSep text.data []).map pyStrip).filter (· ≠ "")

/-- Recognized image file extensions, from the regex
`\.(jpg|jpeg|png|gif|webp|avif)$` in `normalize_image_reference`. -/
def IMAGE_EXTENSIONS : List String :=
  [".jpg", ".jpeg", ".png", ".gif", ".webp", ".avif"]

/-- Split on a separator character keeping empty pieces, the behaviour
of Python `str.split(sep)` with an explicit separator. -/
def splitKeepAux (p : Char → Bool) : List Char → List Char → List String
  | [], acc => [⟨acc.reverse⟩]
  | c :: rest, acc =>
    if p c then (⟨acc.reverse⟩ : String) :: splitKeepAux p rest []
    else splitKeepAux p rest (c :: acc)

/-- Python `raw.split('/')[-1]` (the split list is never empty, so the
`getLastD` default is unreachable). -/
def lastSlashComponent (s : String) : String :=
  (splitKeepAux (· == '/') s.data []).getLastD s

/-- `normalize_image_reference` from `src/app.py`. -/
def normalize_image_reference (value : String) : String :=
  let raw0 := pyStripChar (Char.ofNat 39) (pyStripChar '"' (pyStrip value))
  if raw0 = "" then ""
  else
    let raw := charReplace '\\' '/' raw0
    let lowered := pyLower raw
    if strStartsWith lowered "http://" || strStartsWith lowered "https://"
        || strStartsWith lowered "data:image" || strStartsWith lowered "blob:" then raw
    else if strStartsWith raw "/static/" then raw
    else if strStartsWith raw "static/" then "/" ++ raw
    else if strStartsWith raw "images/" then "/static/" ++ raw
    else if strStartsWith raw "/images/" then "/static" ++ raw
    else if IMAGE_EXTENSIONS.any (fun ext => strEndsWith lowered ext) then
      "/static/images/products/" ++ lastSlashComponent raw
    else raw

/-- `normalize_size_value` from `src/app.py`: strip; a token fully
matching `\d+\.0+` keeps only the digits before the dot. -/
def normalize_size_value (value : String) : String :=
  let val := pyStrip value
  if val = "" then ""
  else
    let sp := val.data.span Char.isDigit
    match sp.2 with
    | '.' :: rest =>
      if sp.1 ≠ [] ∧ rest ≠ [] ∧ rest.all (· == '0') then ⟨sp.1⟩ else val
    | _ => val

example : normalize_size_value "6.0" = "6" := by decide
example : normalize_size_value "6.00" = "6" := by decide
example : normalize_size_value " 7 " = "7" := by decide
example : normalize_size_value "6.5" = "6.5" := by decide
example : normalize_bulk_header "  Heel\nHeight  (in) " = "heel height (in)" := by decide
example : split_multi_value "6, 7/8; 9" = ["6", "7", "8", "9"] := by decide
example : parse_number "1,234.5" 0 = mkRat 2469 2 := by decide
example : parse_number "999" 0 = (999 : ℚ) := by decide
example : parse_number "abc" 5 = (5 : ℚ) := by decide
example : parse_int "7.9" 0 = 7 := by decide
example : normalize_image_reference "shoe1.jpg" = "/static/images/products/shoe1.jpg" := by decide
example : normalize_image_reference "https://cdn.example.com/a.png" = "https://cdn.example.com/a.png" := by decide
example : normalize_image_reference "/static/images/x.png" = "/static/images/x.png" := by decide

/-! ## `src/app.py`: rows, header index and the row extractor -/

/-- A spreadsheet row as produced by the readers: a Python dict mapping
original header text to the (already stripped) cell value. -/
abbrev Row := List (String × String)

/-- Python `row.get(key, '')`. -/
def rowGet (row : Row) (key : String) : String := (List.lookup key row).getD ""

/-- `header_index_map = {normalize_bulk_header(h): h for h in headers if h}`
from `process_bulk_upload_file`: a dict comprehension, so assignment
semantics apply (a later header with the same normalized key overwrites
the mapped original text). -/
def headerIndexMap (headers : List String) : List (String × String) :=
  (headers.filter (· ≠ "")).foldl (fun m h => dictInsert m (normalize_bulk_header h) h) []

/-- `get_from_row` from `src/app.py` (with the default `''` its callers
use): resolve the original column via the normalized index map, then
return the stripped cell value. -/
def get_from_row (row : Row) (im : List (String × String)) (key : String) : String :=
  match List.lookup (normalize_bulk_header key) im with
  | some orig => pyStrip (rowGet row orig)
  | none => ""

/-- `get_non_empty_by_header_match` from `src/app.py`: all
`(normalized, original, stripped value)` triples whose normalized header
matches and whose value is non-empty, in index-map (insertion) order. -/
def get_non_empty_by_header_match (row : Row) (im : List (String × String))
    (matcher : String → Bool) : List (String × String × String) :=
  im.filterMap fun kv =>
    if matcher kv.1 then
      let value := pyStrip (rowGet row kv.2)
      if value ≠ "" then some (kv.1, kv.2, value) else none
    else none

/-- One step of the seen-set accumulation used by `extract_variant_sizes`:
normalize the token and append it unless empty or already collected. -/
def addSizeToken (acc : List String) (tok : String) : List String :=
  let s := normalize_size_value tok
  if s ≠ "" ∧ s ∉ acc then acc ++ [s] else acc

/-- The header names excluded from the size/variant column scan. -/
def SIZE_EXCLUDED_HEADERS : List String :=
  [normalize_bulk_header "Length Size", normalize_bulk_header "Width Size",
   normalize_bulk_header "Heel Height", normalize_bulk_header "Heel Height (in)"]

/-- The matcher passed to `get_non_empty_by_header_match` by
`extract_variant_sizes`. -/
def sizeHeaderMatcher (n : String) : Bool :=
  (strContains n "size" || strContains n "variant") && !(SIZE_EXCLUDED_HEADERS.contains n)

/-- One `re.findall` match attempt of `([0-9]+(?:\.[0-9]+)?)\s*[:=]\s*[0-9]+`
at the head of the input: greedy digits, an optional fraction (a dot is
consumed only when at least one digit follows), optional whitespace, a
colon or equals sign, optional whitespace, then digits.  Returns the
captured size token together with the input remaining after the match.
Maximal-munch digit runs make regex backtracking unnecessary here: if
the fractional branch parses, the branch without it always fails at the
`[:=]` position (it would sit on the dot). -/
def matchSizeQty (l : List Char) : Option (List Char × List Char) :=
  let d1Split := l.span Char.isDigit
  if d1Split.1 = [] then none
  else
    let grpSplit : List Char × List Char :=
      match d1Split.2 with
      | '.' :: rr =>
        let d2Split := rr.span Char.isDigit
        if d2Split.1 = [] then (d1Split.1, d1Split.2)
        else (d1Split.1 ++ '.' :: d2Split.1, d2Split.2)
      | _ => (d1Split.1, d1Split.2)
    let r3 := grpSplit.2.dropWhile pyIsSpace
    match r3 with
    | [] => none
    | c :: r4 =>
      if c == ':' || c == '=' then
        let r5 := r4.dropWhile pyIsSpace
        let d3Split := r5.span Char.isDigit
        if d3Split.1 = [] then none else some (grpSplit.1, d3Split.2)
      else none

/-- The left-to-right non-overlapping scan of `re.findall`: try a match
at each position; on success continue after the matched text.  `fuel`
bounds the recursion; each step consumes at least one character, so
initialising it with the input length never cuts the scan short. -/
def findSizeQtyAux : Nat → List Char → List String
  | 0, _ => []
  | _, [] => []
  | fuel + 1, c :: rest =>
    match matchSizeQty (c :: rest) with
    | some (grp, r) => (⟨grp⟩ : String) :: findSizeQtyAux fuel r
    | none => findSizeQtyAux fuel rest

/-- All size tokens captured by the `size:qty` pair regex over a cell. -/
def findSizeQtyPairs (value : String) : List String :=
  findSizeQtyAux value.data.length value.data

/-- `extract_variant_sizes` from `src/app.py`: pass (a) the primary
`Size` column, split and size-normalized; pass (b) every other
size/variant-named column, preferring `size:qty` pair captures and
falling back to a plain multi-value split; pass (c) only when nothing
was collected, the `Length Size` and `Width Size` cells taken whole.
All passes share one seen-set, preserving first-seen order. -/
def extract_variant_sizes (row : Row) (im : List (String × String)) : List String :=
  let sizes1 := (split_multi_value (get_from_row row im "Size")).foldl addSizeToken []
  let extra := get_non_empty_by_header_match row im sizeHeaderMatcher
  let sizes2 := extra.foldl (fun acc t =>
    let pairs := findSizeQtyPairs t.2.2
    let toks := if pairs ≠ [] then pairs else split_multi_value t.2.2
    toks.foldl addSizeToken acc) sizes1
  if sizes2 ≠ [] then sizes2
  else [get_from_row row im "Length Size", get_from_row row im "Width Size"].foldl addSizeToken sizes2

/-- The image-column matcher of `extract_image_data`. -/
def imageHeaderMatcher (n : String) : Bool :=
  (strContains n "image" || strContains n "img" || strContains n "photo" || strContains n "pic")
    && !(strContains n "tag") && !(strContains n "alt") && !(strContains n "label")

/-- The tag-column matcher of `extract_image_data`. -/
def tagHeaderMatcher (n : String) : Bool :=
  strContains n "tag" || strContains n "label" || strContains n "keyword"

/-- `extract_image_data` from `src/app.py`: normalized, deduplicated
image references from image-named columns and trimmed, deduplicated
tags from tag-named columns, in first-seen order. -/
def extract_image_data (row : Row) (im : List (String × String)) : List String × List String :=
  let image_urls := (get_non_empty_by_header_match row im imageHeaderMatcher).foldl
    (fun acc t =>
      (split_multi_value t.2.2).foldl (fun acc2 tok =>
        let tok2 := normalize_image_reference (pyStrip tok)
        if tok2 ≠ "" ∧ tok2 ∉ acc2 then acc2 ++ [tok2] else acc2) acc) []
  let tags := (get_non_empty_by_header_match row im tagHeaderMatcher).foldl
    (fun acc t =>
      (split_multi_value t.2.2).foldl (fun acc2 tok =>
        let t2 := pyStrip tok
        if t2 ≠ "" ∧ t2 ∉ acc2 then acc2 ++ [t2] else acc2) acc) []
  (image_urls, tags)

/-! ## `src/app.py`: the record mapper -/

/-- One entry of the `variants` list built by `build_product_from_bulk_row`. -/
structure Variant where
  size : String
  color : String
  price : ℚ
deriving DecidableEq

/-- The product document built by `build_product_from_bulk_row`.
The dict's `image_1` key (thumbnail with placeholder fallback) is the
field `image_1`; the `image_1 .. image_8` slots written by the
final loop are the list `imageSlots`; the `images`/`tags`/`variants`
keys, attached only when non-empty, are lists (empty = absent); the
`created_at`/`updated_at` timestamps are omitted. -/
structure Product where
  sku_id : String
  product_name : String
  name : String
  description : String
  ornamentation : String
  occasion : String
  generic_name : String
  sizes : List String
  fastening : String
  heel_height : String
  heel_type : String
  heel_height_in : String
  insole : String
  material : String
  sole_material : String
  pattern : String
  type : String
  mrp : ℚ
  price : ℚ
  meesho_price : ℚ
  return_price : ℚ
  length_size : String
  width_size : String
  weight : ℤ
  hsn_code : String
  gst : String
  color : String
  ankle_height : String
  toe_type : String
  origin : String
  mfg_name : String
  mfg_address : String
  category : String
  inventory : ℤ
  image_1 : String
  imageSlots : List String
  images : List String
  tags : List String
  variants : List Variant
deriving DecidableEq

/-- The placeholder thumbnail used when a row resolves no image. -/
def PLACEHOLDER_IMAGE : String := "https://via.placeholder.com/400x400"

/-- `build_product_from_bulk_row` from `src/app.py`. -/
def build_product_from_bulk_row (row : Row) (im : List (String × String)) : Product :=
  let sku := get_from_row row im "SKU"
  let product_name := get_from_row row im "Product Name"
  let description := get_from_row row im "Description"
  let sizes := extract_variant_sizes row im
  let imagesTags := extract_image_data row im
  let image_urls := imagesTags.1
  let tags := imagesTags.2
  let price := parse_number (get_from_row row im "Selling Price") 0
  let mrp := parse_number (get_from_row row im "MRP") price
  let inventory := parse_int (get_from_row row im "Net Quantity") 0
  let color := get_from_row row im "Color"
  let variants := if sizes ≠ [] then sizes.map (fun s => Variant.mk s color price) else []
  { sku_id := sku
    product_name := product_name
    name := product_name
    description := description
    ornamentation := get_from_row row im "Ornamentation"
    occasion := get_from_row row im "Occasion"
    generic_name := get_from_row row im "Generic Name"
    sizes := sizes
    fastening := get_from_row row im "Fastening & Back Detail"
    heel_height := get_from_row row im "Heel Height"
    heel_type := get_from_row row im "Heel Type"
    heel_height_in := get_from_row row im "Heel Height (in)"
    insole := get_from_row row im "Insole"
    material := get_from_row row im "Material"
    sole_material := get_from_row row im "Sole Material"
    pattern := get_from_row row im "Pattern"
    type := get_from_row row im "Type"
    mrp := mrp
    price := price
    meesho_price := price
    return_price := parse_number (get_from_row row im "Wrong/Defective Returns Price") 0
    length_size := get_from_row row im "Length Size"
    width_size := get_from_row row im "Width Size"
    weight := parse_int (get_from_row row im "Net Weight") 0
    hsn_code := get_from_row row im "HSN Code"
    gst := get_from_row row im "GST"
    color := get_from_row row im "Color"
    ankle_height := get_from_row row im "Ankle Height"
    toe_type := get_from_row row im "Toe Type"
    origin := get_from_row row im "COUNTRY OF ORIGIN"
    mfg_name := get_from_row row im "Manufacturer Name"
    mfg_address := get_from_row row im "Manufacturer Address"
    category := if get_from_row row im "Type" = "" then "General" else get_from_row row im "Type"
    inventory := inventory
    image_1 := match image_urls with
      | [] => PLACEHOLDER_IMAGE
      | u :: _ => u
    imageSlots := image_urls.take 8
    images := image_urls
    tags := tags
    variants := variants }

example : extract_variant_sizes [("Size", "6, 7/8; 9")] (headerIndexMap ["Size"]) = ["6", "7", "8", "9"] := by decide
example : findSizeQtyPairs "6:10, 7:8" = ["6", "7"] := by decide
example : findSizeQtyPairs "1:2:3" = ["1"] := by decide
example : extract_variant_sizes [("Size Qty", "6:10|7:8")] (headerIndexMap ["SKU", "Size Qty"]) = ["6", "7"] := by decide
example : extract_variant_sizes [("Length Size", "9.0"), ("Width Size", "9.0")]
    (headerIndexMap ["Length Size", "Width Size"]) = ["9"] := by decide

/-! ## `src/app.py`: the xlsx container reader (`xlsx_rows_to_dicts`)

The zip/XML layer (`zipfile`, `ElementTree`) is external; the reader is
modelled from the point where the parts have been located and parsed:
a `Workbook` holds the shared-string pool (present iff
`xl/sharedStrings.xml` is in the archive, each entry the concatenated
`<t>` runs of one `<si>`) and the first worksheet's rows of cells
(present iff `xl/worksheets/sheet1.xml` is in the archive). -/

/-- One `<c>` element: its `r` attribute, optional `t` attribute, the
text of its `<v>` child if that child exists (an empty text node is the
empty string), and the text of its inline-string `<t>` descendant. -/
structure XCell where
  ref : String
  t : Option String
  v : Option String
  inlineText : Option String
deriving DecidableEq

/-- The parsed parts of the uploaded archive. -/
structure Workbook where
  sharedStrings : Option (List String)
  sheet : Option (List (List XCell))
deriving DecidableEq

/-- `col_ref_to_index` from `xlsx_rows_to_dicts`: keep the letters of a
cell reference, uppercase them, and fold base-26 (`ord(ch) - ord('A') + 1`
per letter, minus one at the end); `-1` when there are no letters. -/
def col_ref_to_index (ref : String) : Int :=
  let letters := (ref.data.filter Char.isAlpha).map Char.toUpper
  if letters = [] then -1
  else (letters.foldl (fun idx ch => idx * 26 + ((ch.toNat : Int) - 65 + 1)) (0 : Int)) - 1

/-- `cell_value` from `xlsx_rows_to_dicts`: inline strings read their
`<t>` text; otherwise a missing `<v>` yields `''`; shared-string cells
(`t="s"`) index into the pool when the value is a digit string in
range, else `''`; all other cells yield the literal `<v>` text. -/
def cell_value (shared : List String) (c : XCell) : String :=
  if c.t == some "inlineStr" then c.inlineText.getD ""
  else
    match c.v with
    | none => ""
    | some rawv =>
      if c.t == some "s" then
        if rawv ≠ "" ∧ rawv.data.all Char.isDigit then
          let idx := digitsToNat rawv.data
          if idx < shared.length then shared.getD idx "" else ""
        else ""
      else rawv

/-- The `col_idx → stripped value` dict a row's cells build in
`xlsx_rows_to_dicts` (cells without a usable column index are dropped;
duplicate indices overwrite, dict-style). -/
def cellsToMap (shared : List String) (cells : List XCell) : List (Nat × String) :=
  cells.foldl (fun m c =>
    let ci := col_ref_to_index c.ref
    if 0 ≤ ci then dictInsert m ci.toNat (pyStrip (cell_value shared c)) else m) []

/-- `xlsx_rows_to_dicts` from `src/app.py`. -/
def xlsx_rows_to_dicts (wb : Workbook) : List String × List Row :=
  let shared := wb.sharedStrings.getD []
  match wb.sheet with
  | none => ([], [])
  | some [] => ([], [])
  | some (headerRow :: dataRows) =>
    let header_map := cellsToMap shared headerRow
    let headerCount : Nat :=
      if header_map = [] then 0 else ((header_map.map (·.1)).foldl max 0) + 1
    let headers := (List.range headerCount).map
      (fun i => pyStrip ((List.lookup i header_map).getD ""))
    let data := dataRows.filterMap (fun rcells =>
      let row_map := cellsToMap shared rcells
      if row_map.all (fun kv => kv.2 == "") then none
      else some ((List.range headers.length).foldl (fun d i =>
        dictInsert d (headers.getD i "") ((List.lookup i row_map).getD "")) []))
    (headers, data)

example : col_ref_to_index "A" = 0 := by decide
example : col_ref_to_index "Z" = 25 := by decide
example : col_ref_to_index "AA" = 26 := by decide
example : col_ref_to_index "AB12" = 27 := by decide
example : col_ref_to_index "12" = -1 := by decide

/-! ## `src/app.py`: `process_bulk_upload_file` -/

/-- `products_collection.find_one({'sku_id': sku})`. -/
def findBySku (catalog : List Product) (sku : String) : Option Product :=
  catalog.find? (fun p => p.sku_id == sku)

/-- The required columns absent from the uploaded header row
(`missing` in `process_bulk_upload_file`). -/
def requiredMissingColumns (headers : List String) : List String :=
  BULK_REQUIRED_ATTRIBUTES.filter
    (fun h => !(((headers.filter (· ≠ "")).map normalize_bulk_header).contains (normalize_bulk_header h)))

/-- The per-row required-value check of `process_bulk_upload_file`:
every required attribute whose resolved, stripped cell value is empty —
except that an empty `Size` is accepted when `extract_variant_sizes`
finds sizes in any size/variant column. -/
def missingRequiredValues (row : Row) (im : List (String × String)) : List String :=
  BULK_REQUIRED_ATTRIBUTES.filter fun col =>
    let origCol := (List.lookup (normalize_bulk_header col) im).getD col
    let v := pyStrip (rowGet row origCol)
    let v2 := if v = "" ∧ col = "Size"
      then String.intercalate "," (extract_variant_sizes row im) else v
    v2 = ""

/-- The error message for a row with missing required values. -/
def missMsg (idx : Nat) (missing : List String) : String :=
  "Row " ++ toString idx ++ ": missing value(s) in " ++ String.intercalate ", " missing

/-- The error message for a row whose SKU is already in the catalog. -/
def dupMsg (idx : Nat) (sku : String) : String :=
  "Row " ++ toString idx ++ ": SKU \"" ++ sku ++ "\" already exists"

/-- The counters, error list and catalog state accumulated by the row
loop of `process_bulk_upload_file`. -/
structure LoopState where
  created : Nat
  skipped : Nat
  errors : List String
  catalog : List Product
deriving DecidableEq

/-- The row loop of `process_bulk_upload_file` (`for row_index, row in
enumerate(rows, start=2)`): a row with missing required values is
skipped with a `missing value(s)` error; a row whose SKU is already in
the catalog is skipped with an `already exists` error; otherwise the
built document is inserted and the row counted as created. -/
def bulkLoop (im : List (String × String)) : List Product → List Row → Nat → LoopState
  | catalog, [], _ => ⟨0, 0, [], catalog⟩
  | catalog, row :: rest, idx =>
    let missing := missingRequiredValues row im
    if missing ≠ [] then
      let st := bulkLoop im catalog rest (idx + 1)
      ⟨st.created, st.skipped + 1, missMsg idx missing :: st.errors, st.catalog⟩
    else
      let doc := build_product_from_bulk_row row im
      if (findBySku catalog doc.sku_id).isSome then
        let st := bulkLoop im catalog rest (idx + 1)
        ⟨st.created, st.skipped + 1, dupMsg idx doc.sku_id :: st.errors, st.catalog⟩
      else
        let st := bulkLoop im (catalog ++ [doc]) rest (idx + 1)
        ⟨st.created + 1, st.skipped, st.errors, st.catalog⟩

/-- The `(success, errors, {'created', 'skipped'})` result of
`process_bulk_upload_file`. -/
structure BulkResult where
  ok : Bool
  errors : List String
  created : Nat
  skipped : Nat
deriving DecidableEq

/-- `process_bulk_upload_file` from `src/app.py`, from the point where a
reader has produced `(headers, rows)` (file-presence and extension
dispatch happen upstream of the behaviour any claim concerns): abort
with one combined message when required columns are missing, otherwise
run the row loop starting at spreadsheet row 2.  Also returns the
resulting catalog. -/
def process_bulk_upload_file (catalog : List Product) (headers : List String)
    (rows : List Row) : BulkResult × List Product :=
  let im := headerIndexMap headers
  let missing := requiredMissingColumns headers
  if missing ≠ [] then
    (⟨false, ["Missing required column(s): " ++ String.intercalate ", " missing], 0, 0⟩, catalog)
  else
    let st := bulkLoop im catalog rows 2
    (⟨true, st.errors, st.created, st.skipped⟩, st.catalog)

/-! ## `src/catalog_portal/bulk_upload/bulk_upload.py`: the relational pipeline -/

/-- An ASCII apostrophe (used inside error-message literals). -/
def apos : String := String.singleton (Char.ofNat 39)

/-- `REQUIRED_COLUMNS` from `bulk_upload.py`. -/
def REQUIRED_COLUMNS : List String := ["sku", "name", "category_slug", "mrp", "selling_price"]

/-- The `ValidationError` dataclass. -/
structure VErr where
  row_number : Nat
  message : String
deriving DecidableEq

/-- `BulkUploader._to_decimal`: `Decimal(str(value).strip())`, rejecting
unparsable and negative values with the source's messages. -/
def to_decimal (value : String) : Except String ℚ :=
  match pyNum? (pyStrip value).data with
  | none => .error ("Invalid numeric value " ++ apos ++ value ++ apos)
  | some q =>
    if q < 0 then .error "Numeric values cannot be negative" else .ok q

/-- The message of a missing-column `ValidationError`. -/
def missingColMsg (c : String) : String := "Missing required column " ++ apos ++ c ++ apos

/-- The required columns absent from the frame. -/
def frameMissingColumns (cols : List String) : List String :=
  REQUIRED_COLUMNS.filter (fun c => ¬ c ∈ cols)

/-- `BulkUploader._validate_frame`: one row-1 error per missing required
column, returned immediately when any column is missing; otherwise, for
each frame row (`row_number = index + 2`), one error per empty required
value, then the `mrp`/`selling_price` decimal checks (a decimal failure
skips the price comparison for that row), then the
`selling_price > mrp` check. -/
def validate_frame (cols : List String) (rows : List Row) : List VErr :=
  let colErrs := (frameMissingColumns cols).map (fun c => VErr.mk 1 (missingColMsg c))
  if colErrs ≠ [] then colErrs
  else
    (rows.enum.map (fun ri =>
      let row := ri.2
      let rn := ri.1 + 2
      let emptyErrs := (REQUIRED_COLUMNS.filter
        (fun c => pyStrip (rowGet row c) = "")).map
        (fun c => VErr.mk rn (apos ++ c ++ apos ++ " cannot be empty"))
      match to_decimal (rowGet row "mrp") with
      | .error m => emptyErrs ++ [VErr.mk rn m]
      | .ok mrp =>
        match to_decimal (rowGet row "selling_price") with
        | .error m => emptyErrs ++ [VErr.mk rn m]
        | .ok sp =>
          emptyErrs ++ (if mrp < sp
            then [VErr.mk rn "selling_price cannot be greater than mrp"] else []))).flatten

/-- The formatted report line `f"Row {e.row_number}: {e.message}"`. -/
def formatVErr (e : VErr) : String := "Row " ++ toString e.row_number ++ ": " ++ e.message

/-- The report dict returned by `BulkUploader.run`. -/
structure UploadReport where
  ok : Bool
  created : Nat
  updated : Nat
  skipped : Nat
  errors : List String
deriving DecidableEq

/-- The validation gate of `BulkUploader.run`: when `_validate_frame`
returns errors, the run aborts (before `_persist` or the dry-run branch)
with `created = updated = 0`, `skipped` the number of errors, and the
formatted error list; `none` means validation passed and the run
proceeds to persistence. -/
def runValidationGate (cols : List String) (rows : List Row) : Option UploadReport :=
  let errors := validate_frame cols rows
  if errors.isEmpty then none
  else some ⟨false, 0, 0, errors.length, errors.map formatVErr⟩

/-- A product payload as produced by `BulkUploader._map_row` (the shape
`_upsert_product` consumes). -/
structure Payload where
  sku : String
  name : String
  category_slug : String
  description : Option String
  brand : Option String
  hsn_code : Option String
  mrp : ℚ
  selling_price : ℚ
  currency : String
  images : List String
deriving DecidableEq

/-- A row of the `categories` table. -/
structure PgCategory where
  id : Nat
  slug : String
deriving DecidableEq

/-- A row of the `products` table (the columns `_upsert_product` writes). -/
structure PgProduct where
  id : Nat
  category_id : Nat
  sku : String
  name : String
  description : Option String
  brand : Option String
  hsn_code : Option String
  mrp : ℚ
  selling_price : ℚ
  currency : String
  primary_image_url : Option String
deriving DecidableEq

/-- The relational store state `_upsert_product` reads and writes;
`nextId` models the id sequence. -/
structure PgState where
  categories : List PgCategory
  products : List PgProduct
  nextId : Nat
deriving DecidableEq

/-- `BulkUploader._upsert_product`: the `INSERT ... SELECT ... FROM
categories WHERE slug = %s ON CONFLICT (sku) DO UPDATE ... RETURNING id,
(xmax = 0) AS inserted` statement.  No category row with the payload's
slug selects nothing, so `fetchone()` is `None` and the method raises
(`.error`).  Otherwise, a products row with the same SKU is updated in
place (every non-key column overwritten from the payload,
`primary_image_url` from the first payload image) and reported as not
inserted; with no conflict a fresh row is inserted and reported as
inserted.  Returns the new state with the product id and the
`inserted` flag. -/
def upsert_product (st : PgState) (p : Payload) : Except String (PgState × Nat × Bool) :=
  match st.categories.find? (fun c => c.slug == p.category_slug) with
  | none => .error ("Category slug " ++ apos ++ p.category_slug ++ apos ++ " does not exist")
  | some cat =>
    let primary := p.images.head?
    match st.products.find? (fun pr => pr.sku == p.sku) with
    | some old =>
      let upd : PgProduct :=
        { old with
          category_id := cat.id, name := p.name, description := p.description,
          brand := p.brand, hsn_code := p.hsn_code, mrp := p.mrp,
          selling_price := p.selling_price, currency := p.currency,
          primary_image_url := primary }
      .ok ({ st with products := st.products.map (fun pr => if pr.sku == p.sku then upd else pr) },
        old.id, false)
    | none =>
      let newp : PgProduct :=
        ⟨st.nextId, cat.id, p.sku, p.name, p.description, p.brand, p.hsn_code,
         p.mrp, p.selling_price, p.currency, primary⟩
      .ok ({ st with products := st.products ++ [newp], nextId := st.nextId + 1 },
        st.nextId, true)

/-! ## Concrete fixtures used by the claim theorems -/

/-- A data row with every required column present (values are the
arguments for SKU, Product Name, Size, MRP and Selling Price, short
constants elsewhere).  The key set is exactly
`BULK_REQUIRED_ATTRIBUTES`. -/
def sampleRow (sku pname size mrp sp : String) : Row :=
  [("SKU", sku), ("Product Name", pname), ("Description", "D"),
   ("Ornamentation", "O"), ("Occasion", "Oc"), ("Generic Name", "G"),
   ("Size", size), ("Fastening & Back Detail", "F"), ("Heel Height", "H"),
   ("Heel Type", "HT"), ("Heel Height (in)", "1"), ("Insole", "I"),
   ("Material", "M"), ("Sole Material", "SM"), ("Pattern", "Pa"),
   ("Type", "T"), ("Net Quantity", "2"), ("MRP", mrp), ("Selling Price", sp),
   ("Wrong/Defective Returns Price", "1"), ("Length Size", "6"),
   ("Width Size", "6"), ("Net Weight", "1"), ("HSN Code", "64"),
   ("GST", "5"), ("Color", "Red"), ("Ankle Height", "A"), ("Toe Type", "TT"),
   ("COUNTRY OF ORIGIN", "IN"), ("Manufacturer Name", "MN"),
   ("Manufacturer Address", "MA")]

/-- The header index map of a file whose header row is exactly the
required attribute list. -/
def imR : List (String × String) := headerIndexMap BULK_REQUIRED_ATTRIBUTES

example : requiredMissingColumns BULK_REQUIRED_ATTRIBUTES = [] := by decide
example : missingRequiredValues (sampleRow "S1" "P" "6" "10" "9") imR = [] := by decide
example : missingRequiredValues (sampleRow "S5" "P" "6" "" "9") imR = ["MRP"] := by decide

/-! ## Helper lemmas -/

theorem dictInsert_lookup_self {α β : Type} [BEq α] [LawfulBEq α]
    (m : List (α × β)) (k : α) (v : β) :
    List.lookup k (dictInsert m k v) = some v := by
  induction m with
  | nil => simp [dictInsert, List.lookup]
  | cons kv m ih =>
    obtain ⟨a, b⟩ := kv
    by_cases h : a = k
    · subst h
      simp [dictInsert, List.lookup]
    · have hb : (a == k) = false := beq_eq_false_iff_ne.mpr h
      have hb2 : (k == a) = false := beq_eq_false_iff_ne.mpr (Ne.symm h)
      simp [dictInsert, hb, hb2, List.lookup, ih]

theorem dictInsert_lookup_ne {α β : Type} [BEq α] [LawfulBEq α]
    (m : List (α × β)) (k k' : α) (v : β) (h : k' ≠ k) :
    List.lookup k' (dictInsert m k v) = List.lookup k' m := by
  induction m with
  | nil =>
    simp [dictInsert, List.lookup, beq_eq_false_iff_ne.mpr h]
  | cons kv m ih =>
    obtain ⟨a, b⟩ := kv
    by_cases ha : a = k
    · subst ha
      simp [dictInsert, List.lookup, beq_eq_false_iff_ne.mpr h]
    · have hb : (a == k) = false := beq_eq_false_iff_ne.mpr ha
      by_cases hk : k' = a
      · subst hk
        simp [dictInsert, hb, List.lookup]
      · simp [dictInsert, hb, List.lookup, beq_eq_false_iff_ne.mpr hk, ih]

/-- Spec-side description used by the amended C7 claim: the raw header
that wins the normalized key `k` is the last non-empty header in the
row normalizing to `k`. -/
def lastOccurrenceOriginal (headers : List String) (k : String) : Option String :=
  (headers.filter (· ≠ "")).reverse.find? (fun h => normalize_bulk_header h == k)

theorem foldl_dictInsert_lookup (hs : List String) :
    ∀ (m : List (String × String)) (k : String),
    List.lookup k (hs.foldl (fun m h => dictInsert m (normalize_bulk_header h) h) m)
      = (hs.reverse.find? (fun h => normalize_bulk_header h == k)).or (List.lookup k m) := by
  induction hs with
  | nil => intro m k; simp
  | cons h t ih =>
    intro m k
    simp only [List.foldl_cons, List.reverse_cons, List.find?_append]
    rw [ih]
    by_cases hk : normalize_bulk_header h = k
    · subst hk
      cases t.reverse.find? (fun g => normalize_bulk_header g == normalize_bulk_header h) with
      | none => simp [List.find?, dictInsert_lookup_self]
      | some w => simp [List.find?]
    · have : (normalize_bulk_header h == k) = false := beq_eq_false_iff_ne.mpr hk
      cases t.reverse.find? (fun h => normalize_bulk_header h == k) with
      | none => simp [List.find?, this, dictInsert_lookup_ne m (normalize_bulk_header h) k h (Ne.symm hk)]
      | some w => simp [List.find?, this]

theorem headerIndexMap_lookup (headers : List String) (k : String) :
    List.lookup k (headerIndexMap headers) = lastOccurrenceOriginal headers k := by
  rw [headerIndexMap, lastOccurrenceOriginal, foldl_dictInsert_lookup]
  simp

theorem findBySku_eq_none_iff (catalog : List Product) (s : String) :
    findBySku catalog s = none ↔ ∀ p ∈ catalog, p.sku_id ≠ s := by
  simp [findBySku, List.find?_eq_none]

theorem findBySku_isSome_iff (catalog : List Product) (s : String) :
    (findBySku catalog s).isSome = true ↔ ∃ p ∈ catalog, p.sku_id = s := by
  simp [findBySku, List.find?_isSome]

theorem build_sku_id (row : Row) (im : List (String × String)) :
    (build_product_from_bulk_row row im).sku_id = get_from_row row im "SKU" := rfl


theorem bulkLoop_cons_miss (im : List (String × String)) (catalog : List Product)
    (row : Row) (rest : List Row) (idx : Nat)
    (h : missingRequiredValues row im ≠ []) :
    bulkLoop im catalog (row :: rest) idx
      = ⟨(bulkLoop im catalog rest (idx + 1)).created,
         (bulkLoop im catalog rest (idx + 1)).skipped + 1,
         missMsg idx (missingRequiredValues row im) :: (bulkLoop im catalog rest (idx + 1)).errors,
         (bulkLoop im catalog rest (idx + 1)).catalog⟩ := by
  simp only [bulkLoop]
  rw [if_pos h]

theorem bulkLoop_cons_dup (im : List (String × String)) (catalog : List Product)
    (row : Row) (rest : List Row) (idx : Nat)
    (h : missingRequiredValues row im = [])
    (h2 : (findBySku catalog (build_product_from_bulk_row row im).sku_id).isSome = true) :
    bulkLoop im catalog (row :: rest) idx
      = ⟨(bulkLoop im catalog rest (idx + 1)).created,
         (bulkLoop im catalog rest (idx + 1)).skipped + 1,
         dupMsg idx (build_product_from_bulk_row row im).sku_id :: (bulkLoop im catalog rest (idx + 1)).errors,
         (bulkLoop im catalog rest (idx + 1)).catalog⟩ := by
  simp only [bulkLoop]
  rw [if_neg (by simp [h]), if_pos h2]

theorem bulkLoop_cons_new (im : List (String × String)) (catalog : List Product)
    (row : Row) (rest : List Row) (idx : Nat)
    (h : missingRequiredValues row im = [])
    (h2 : (findBySku catalog (build_product_from_bulk_row row im).sku_id).isSome = false) :
    bulkLoop im catalog (row :: rest) idx
      = ⟨(bulkLoop im (catalog ++ [build_product_from_bulk_row row im]) rest (idx + 1)).created + 1,
         (bulkLoop im (catalog ++ [build_product_from_bulk_row row im]) rest (idx + 1)).skipped,
         (bulkLoop im (catalog ++ [build_product_from_bulk_row row im]) rest (idx + 1)).errors,
         (bulkLoop im (catalog ++ [build_product_from_bulk_row row im]) rest (idx + 1)).catalog⟩ := by
  simp only [bulkLoop]
  rw [if_neg (by simp [h]), if_neg (by simp [h2])]

theorem bulkLoop_counts (im : List (String × String)) (rows : List Row) :
    ∀ (catalog : List Product) (idx : Nat),
    (bulkLoop im catalog rows idx).created + (bulkLoop im catalog rows idx).skipped = rows.length
    ∧ (bulkLoop im catalog rows idx).errors.length = (bulkLoop im catalog rows idx).skipped := by
  induction rows with
  | nil => intro catalog idx; simp [bulkLoop]
  | cons row rest ih =>
    intro catalog idx
    rcases eq_or_ne (missingRequiredValues row im) [] with h1 | h1
    · cases h2 : (findBySku catalog (build_product_from_bulk_row row im).sku_id).isSome with
      | true =>
        rw [bulkLoop_cons_dup im catalog row rest idx h1 h2]
        have := ih catalog (idx + 1)
        simp only [List.length_cons, List.length]
        omega
      | false =>
        rw [bulkLoop_cons_new im catalog row rest idx h1 h2]
        have := ih (catalog ++ [build_product_from_bulk_row row im]) (idx + 1)
        simp only [List.length_cons, List.length]
        omega
    · rw [bulkLoop_cons_miss im catalog row rest idx h1]
      have := ih catalog (idx + 1)
      simp only [List.length_cons, List.length]
      omega

/-- Sequential composition of two loop-state results. -/
def combineLoopStates (a b : LoopState) : LoopState :=
  ⟨a.created + b.created, a.skipped + b.skipped, a.errors ++ b.errors, b.catalog⟩

theorem bulkLoop_append (im : List (String × String)) (xs ys : List Row) :
    ∀ (catalog : List Product) (idx : Nat),
    bulkLoop im catalog (xs ++ ys) idx
      = combineLoopStates (bulkLoop im catalog xs idx)
          (bulkLoop im (bulkLoop im catalog xs idx).catalog ys (idx + xs.length)) := by
  induction xs with
  | nil => intro catalog idx; simp [bulkLoop, combineLoopStates]
  | cons row rest ih =>
    intro catalog idx
    have hidx : idx + 1 + rest.length = idx + (rest.length + 1) := by omega
    rcases eq_or_ne (missingRequiredValues row im) [] with h1 | h1
    · cases h2 : (findBySku catalog (build_product_from_bulk_row row im).sku_id).isSome with
      | true =>
        rw [List.cons_append, bulkLoop_cons_dup im catalog row (rest ++ ys) idx h1 h2,
          bulkLoop_cons_dup im catalog row rest idx h1 h2, ih, combineLoopStates,
          combineLoopStates]
        simp only [List.length_cons, LoopState.mk.injEq, hidx]
        and_intros <;> first | omega | simp
      | false =>
        rw [List.cons_append, bulkLoop_cons_new im catalog row (rest ++ ys) idx h1 h2,
          bulkLoop_cons_new im catalog row rest idx h1 h2, ih, combineLoopStates,
          combineLoopStates]
        simp only [List.length_cons, LoopState.mk.injEq, hidx]
        and_intros <;> first | omega | simp
    · rw [List.cons_append, bulkLoop_cons_miss im catalog row (rest ++ ys) idx h1,
        bulkLoop_cons_miss im catalog row rest idx h1, ih, combineLoopStates,
        combineLoopStates]
      simp only [List.length_cons, LoopState.mk.injEq, hidx]
      and_intros <;> first | omega | simp

theorem bulkLoop_all_complete_fresh (im : List (String × String)) (rows : List Row) :
    ∀ (catalog : List Product) (idx : Nat),
    (∀ r ∈ rows, missingRequiredValues r im = []) →
    (∀ r ∈ rows, ∀ p ∈ catalog, p.sku_id ≠ get_from_row r im "SKU") →
    (rows.map (fun r => get_from_row r im "SKU")).Nodup →
    bulkLoop im catalog rows idx
      = ⟨rows.length, 0, [], catalog ++ rows.map (fun r => build_product_from_bulk_row r im)⟩ := by
  induction rows with
  | nil => intro catalog idx _ _ _; simp [bulkLoop]
  | cons row rest ih =>
    intro catalog idx hcomp hfresh hnodup
    rw [List.map_cons] at hnodup
    have hn := List.nodup_cons.mp hnodup
    have h1 : missingRequiredValues row im = [] := hcomp row (by simp)
    have hnone : findBySku catalog (build_product_from_bulk_row row im).sku_id = none := by
      rw [build_sku_id, findBySku_eq_none_iff]
      intro p hp
      exact hfresh row (by simp) p hp
    have h2 : (findBySku catalog (build_product_from_bulk_row row im).sku_id).isSome = false := by
      rw [hnone]; rfl
    have hrec := ih (catalog ++ [build_product_from_bulk_row row im]) (idx + 1)
      (fun r hr => hcomp r (by simp [hr]))
      (by
        intro r hr p hp
        rcases List.mem_append.mp hp with hp1 | hp2
        · exact hfresh r (by simp [hr]) p hp1
        · have hpd : p = build_product_from_bulk_row row im := by simpa using hp2
          subst hpd
          rw [build_sku_id]
          intro hEq
          exact hn.1 (hEq ▸ List.mem_map_of_mem (fun r => get_from_row r im "SKU") hr))
      hn.2
    rw [bulkLoop_cons_new im catalog row rest idx h1 h2, hrec]
    simp

theorem formatVErr_row_one (m : String) : formatVErr ⟨1, m⟩ = "Row 1: " ++ m := by
  have h : ("Row " ++ toString (1 : Nat) ++ ": ") = "Row 1: " := by decide
  show "Row " ++ toString (1 : Nat) ++ ": " ++ m = "Row 1: " ++ m
  rw [h]

/-! ## Claim theorems -/

/-- C2 (corrected), counterexample: a frame missing the two required
columns `sku` and `name` makes the relational validator emit two
error messages (one per column), not one combined message, so the run
report carries two error strings. -/
theorem missing_columns_two_messages_relational :
    validate_frame ["category_slug", "mrp", "selling_price"] []
      = [⟨1, missingColMsg "sku"⟩, ⟨1, missingColMsg "name"⟩]
    ∧ runValidationGate ["category_slug", "mrp", "selling_price"] []
      = some ⟨false, 0, 0, 2, ["Row 1: " ++ missingColMsg "sku", "Row 1: " ++ missingColMsg "name"]⟩
    ∧ (2 : Nat) ≠ 1 := by
  decide

/-- C2 (amended): a file missing required columns aborts both engines
before any row is processed with zero rows persisted; the
document-oriented engine reports exactly one combined message listing
every missing column (`created = skipped = 0`, catalog unchanged),
while the relational engine reports one message per missing column,
each at row 1, with `created = updated = 0`. -/
theorem missing_columns_abort :
    (∀ (catalog : List Product) (headers : List String) (rows : List Row),
      requiredMissingColumns headers ≠ [] →
      process_bulk_upload_file catalog headers rows
        = (⟨false,
            ["Missing required column(s): "
              ++ String.intercalate ", " (requiredMissingColumns headers)],
            0, 0⟩, catalog))
    ∧
    (∀ (cols : List String) (rows : List Row),
      frameMissingColumns cols ≠ [] →
      runValidationGate cols rows
        = some ⟨false, 0, 0, (frameMissingColumns cols).length,
            (frameMissingColumns cols).map (fun c => "Row 1: " ++ missingColMsg c)⟩) := by
  constructor
  · intro catalog headers rows h
    simp only [process_bulk_upload_file]
    rw [if_pos h]
  · intro cols rows h
    have hmap : (frameMissingColumns cols).map (fun c => VErr.mk 1 (missingColMsg c)) ≠ [] := by
      intro heq
      exact h (List.map_eq_nil_iff.mp heq)
    have hval : validate_frame cols rows
        = (frameMissingColumns cols).map (fun c => VErr.mk 1 (missingColMsg c)) := by
      simp only [validate_frame]
      rw [if_pos hmap]
    have hie : ((frameMissingColumns cols).map (fun c => VErr.mk 1 (missingColMsg c))).isEmpty = false := by
      cases hfc : frameMissingColumns cols with
      | nil => exact absurd hfc h
      | cons a as => simp
    simp only [runValidationGate, hval, hie, Bool.false_eq_true, if_false]
    congr 1
    simp only [UploadReport.mk.injEq, List.length_map, List.map_map, true_and]
    apply List.map_congr_left
    intro c _
    exact formatVErr_row_one (missingColMsg c)

/-- The header row of a file that lacks only the `MRP` column. -/
def headersNoMRP : List String := BULK_REQUIRED_ATTRIBUTES.filter (· ≠ "MRP")

/-- C2 witness: concrete aborts in both engines. -/
theorem missing_columns_abort_witness :
    requiredMissingColumns headersNoMRP = ["MRP"]
    ∧ process_bulk_upload_file [] headersNoMRP [sampleRow "S1" "P" "6" "10" "9"]
        = (⟨false, ["Missing required column(s): MRP"], 0, 0⟩, [])
    ∧ frameMissingColumns ["category_slug", "mrp", "selling_price"] = ["sku", "name"]
    ∧ runValidationGate ["category_slug", "mrp", "selling_price"] []
        = some ⟨false, 0, 0, 2, ["Row 1: " ++ missingColMsg "sku", "Row 1: " ++ missingColMsg "name"]⟩ := by
  refine ⟨by decide, ?_, by decide, ?_⟩
  · have h := missing_columns_abort.1 [] headersNoMRP [sampleRow "S1" "P" "6" "10" "9"]
      (by decide)
    rw [h]
    decide
  · have h := missing_columns_abort.2 ["category_slug", "mrp", "selling_price"] []
      (by decide)
    rw [h]
    decide

/-- C7 (corrected), counterexample: when the headers `"Color"` and
`"COLOR"` both normalize to the key `"color"`, the header index map
(built by a dict comprehension) maps the key back to the LAST
occurrence `"COLOR"`, not to the first occurrence `"Color"`. -/
theorem header_collision_maps_to_last :
    List.lookup "color" (headerIndexMap ["Color", "COLOR"]) = some "COLOR"
    ∧ normalize_bulk_header "Color" = "color"
    ∧ normalize_bulk_header "COLOR" = "color"
    ∧ ("COLOR" : String) ≠ "Color" := by
  decide

/-- C7 (amended): header normalization trims, collapses internal
whitespace and newlines to single spaces, and lowercases; the header
index map sends each normalized key back to an original header text
that normalizes to it — and when two raw headers collide on the same
key, the LAST occurrence in the header row wins. -/
theorem header_normalization_mapping :
    normalize_bulk_header "  Product\n  Name " = "product name"
    ∧ (∀ (headers : List String) (k : String),
        List.lookup k (headerIndexMap headers) = lastOccurrenceOriginal headers k)
    ∧ (∀ (headers : List String) (k v : String),
        List.lookup k (headerIndexMap headers) = some v →
        v ∈ headers ∧ normalize_bulk_header v = k) := by
  refine ⟨by decide, headerIndexMap_lookup, ?_⟩
  intro headers k v hv
  rw [headerIndexMap_lookup, lastOccurrenceOriginal] at hv
  constructor
  · have hmem := List.mem_of_find?_eq_some hv
    rw [List.mem_reverse] at hmem
    exact (List.mem_filter.mp hmem).1
  · have := List.find?_some hv
    exact beq_iff_eq.mp this

/-- C7 witness: the mapping property applied at a concrete collision. -/
theorem header_normalization_mapping_witness :
    List.lookup "color" (headerIndexMap ["Color", "COLOR"]) = some "COLOR"
    ∧ ("COLOR" : String) ∈ ["Color", "COLOR"] ∧ normalize_bulk_header "COLOR" = "color" :=
  ⟨by decide, header_normalization_mapping.2.2 ["Color", "COLOR"] "color" "COLOR" (by decide)⟩

/-- A container archive holding a shared-string pool whose entry 3 is
`"Red"`, a header row with the single header `Color`, an all-empty data
row, and a data row whose cell references shared-string index 3. -/
def wbShared : Workbook :=
  ⟨some ["a", "b", "c", "Red"],
   some [[⟨"A1", none, some "Color", none⟩],
         [⟨"A2", none, some "", none⟩],
         [⟨"A3", some "s", some "3", none⟩]]⟩

/-- A container archive with no shared-string part but a worksheet with
one non-empty header cell. -/
def wbNoSharedStrings : Workbook :=
  ⟨none, some [[⟨"A1", none, some "X", none⟩]]⟩

/-- C4 (corrected), counterexample: an archive whose shared-string part
is missing but whose worksheet is present does NOT make the reader
return empty headers and rows — the worksheet is still read (here the
header `"X"` survives), contradicting the claim that a missing
shared-string part yields empty headers and rows. -/
theorem missing_shared_strings_still_reads :
    xlsx_rows_to_dicts wbNoSharedStrings = (["X"], [])
    ∧ (["X"], ([] : List Row)) ≠ (([] : List String), ([] : List Row)) := by
  decide

/-- C4 (amended): cell references decode by base-26 letter arithmetic
(`A` → 0, `Z` → 25, `AA` → 26, `AB12` → 27); a shared-string cell whose
value is index 3 resolves to pool entry 3 (`"Red"`); row one supplies
the headers; data rows whose every resolved cell is empty are dropped;
a missing (or row-less) worksheet part yields empty headers and rows;
and a missing shared-string part behaves exactly like an empty pool —
the worksheet is still read, with shared-string cells resolving to
empty strings. -/
theorem xlsx_reader_resolution :
    col_ref_to_index "A" = 0 ∧ col_ref_to_index "Z" = 25
    ∧ col_ref_to_index "AA" = 26 ∧ col_ref_to_index "AB12" = 27
    ∧ cell_value ["a", "b", "c", "Red"] ⟨"A3", some "s", some "3", none⟩ = "Red"
    ∧ xlsx_rows_to_dicts wbShared = (["Color"], [[("Color", "Red")]])
    ∧ (∀ ss : Option (List String), xlsx_rows_to_dicts ⟨ss, none⟩ = ([], []))
    ∧ (∀ ss : Option (List String), xlsx_rows_to_dicts ⟨ss, some []⟩ = ([], []))
    ∧ (∀ sheet : Option (List (List XCell)),
        xlsx_rows_to_dicts ⟨none, sheet⟩ = xlsx_rows_to_dicts ⟨some [], sheet⟩) := by
  refine ⟨by decide, by decide, by decide, by decide, by decide, by decide, ?_, ?_, ?_⟩
  · intro ss; rfl
  · intro ss; rfl
  · intro sheet; rfl

theorem addSizeToken_nodup (acc : List String) (t : String) (h : acc.Nodup) :
    (addSizeToken acc t).Nodup := by
  by_cases hc : normalize_size_value t ≠ "" ∧ normalize_size_value t ∉ acc
  · simp only [addSizeToken, if_pos hc]
    simp [List.nodup_append, h, hc.2]
  · simp only [addSizeToken, if_neg hc]
    exact h

theorem foldl_addSizeToken_nodup (toks : List String) :
    ∀ acc : List String, acc.Nodup → (toks.foldl addSizeToken acc).Nodup := by
  induction toks with
  | nil => intro acc h; simpa
  | cons t ts ih => intro acc h; exact ih _ (addSizeToken_nodup acc t h)

theorem foldl_cells_addSizeToken_nodup {γ : Type} (f : γ → List String) (l : List γ) :
    ∀ acc : List String, acc.Nodup →
    (l.foldl (fun acc2 t => (f t).foldl addSizeToken acc2) acc).Nodup := by
  induction l with
  | nil => intro acc h; simpa
  | cons x xs ih => intro acc h; exact ih _ (foldl_addSizeToken_nodup (f x) acc h)

theorem extract_variant_sizes_nodup (row : Row) (im : List (String × String)) :
    (extract_variant_sizes row im).Nodup := by
  simp only [extract_variant_sizes]
  have hs1 : ((split_multi_value (get_from_row row im "Size")).foldl addSizeToken []).Nodup :=
    foldl_addSizeToken_nodup _ [] List.nodup_nil
  have hs2 := foldl_cells_addSizeToken_nodup
    (fun t : String × String × String =>
      if findSizeQtyPairs t.2.2 ≠ [] then findSizeQtyPairs t.2.2 else split_multi_value t.2.2)
    (get_non_empty_by_header_match row im sizeHeaderMatcher) _ hs1
  split
  · exact hs2
  · exact foldl_addSizeToken_nodup _ _ hs2

/-- C5 (confirmed): size resolution follows the three ordered passes of
`extract_variant_sizes` with one shared dedup set.  Concretely:
`"6.0"` normalizes to `"6"`; the primary Size cell `"6, 7/8; 9"` yields
`["6","7","8","9"]` in order; a `size:qty` column yields only the size
tokens; the length/width fallback fires only when passes (a) and (b)
collected nothing (and dedups `"9.0"`/`"9.0"` to `["9"]`); a value
already collected from the Size column is not repeated by a later
size-like column, and the fallback is skipped when earlier passes
produced sizes; and in general the result never contains a
duplicate. -/
theorem size_resolution_three_passes :
    normalize_size_value "6.0" = "6"
    ∧ extract_variant_sizes [("Size", "6, 7/8; 9")] (headerIndexMap ["Size"]) = ["6", "7", "8", "9"]
    ∧ extract_variant_sizes [("Size Qty", "6:10|7:8")] (headerIndexMap ["SKU", "Size Qty"]) = ["6", "7"]
    ∧ extract_variant_sizes [("Length Size", "9.0"), ("Width Size", "9.0")]
        (headerIndexMap ["Length Size", "Width Size"]) = ["9"]
    ∧ extract_variant_sizes [("Size", "6"), ("Other Size", "6/7"), ("Length Size", "11")]
        (headerIndexMap ["Size", "Other Size", "Length Size"]) = ["6", "7"]
    ∧ (∀ (row : Row) (im : List (String × String)), (extract_variant_sizes row im).Nodup) := by
  refine ⟨by decide, by decide, by decide, by decide, by decide, extract_variant_sizes_nodup⟩

/-- C6 (confirmed): image-reference normalization — a bare filename with
a recognized extension lands in the canonical product-image directory;
http(s)/data/blob URLs and already-canonical `/static/` paths pass
through unchanged; surrounding quotes are trimmed and backslashes
become forward slashes; the known relative prefixes `static/`,
`images/` and `/images/` are rewritten to absolute catalog-image paths;
any other value passes through unchanged.  The final clause states
URL passthrough in general: any input unaffected by quote/whitespace
trimming and backslash replacement that starts with one of the URL
schemes is returned verbatim. -/
theorem image_reference_normalization :
    normalize_image_reference "shoe1.jpg" = "/static/images/products/shoe1.jpg"
    ∧ strEndsWith "/static/images/products/shoe1.jpg" "/shoe1.jpg" = true
    ∧ normalize_image_reference "https://cdn.example.com/a.png" = "https://cdn.example.com/a.png"
    ∧ normalize_image_reference "/static/images/x.png" = "/static/images/x.png"
    ∧ normalize_image_reference "\"img\\a.png\"" = "/static/images/products/a.png"
    ∧ normalize_image_reference "images/x.png" = "/static/images/x.png"
    ∧ normalize_image_reference "static/a.png" = "/static/a.png"
    ∧ normalize_image_reference "/images/y.jpg" = "/static/images/y.jpg"
    ∧ normalize_image_reference "data:image/png;base64,AAA" = "data:image/png;base64,AAA"
    ∧ normalize_image_reference "hello world" = "hello world"
    ∧ (∀ s : String,
        pyStrip s = s →
        pyStripChar '"' s = s →
        pyStripChar (Char.ofNat 39) s = s →
        charReplace '\\' '/' s = s →
        (strStartsWith (pyLower s) "http://" || strStartsWith (pyLower s) "https://"
          || strStartsWith (pyLower s) "data:image" || strStartsWith (pyLower s) "blob:") = true →
        normalize_image_reference s = s) := by
  refine ⟨by decide, by decide, by decide, by decide, by decide, by decide, by decide,
    by decide, by decide, by decide, ?_⟩
  intro s h1 h2 h3 h4 h5
  have hne : s ≠ "" := by
    intro he
    subst he
    exact absurd h5 (by decide)
  simp only [normalize_image_reference, h1, h2, h3]
  rw [if_neg hne, h4]
  rw [if_pos h5]

/-- C6 witness: the general URL-passthrough clause at a concrete input. -/
theorem image_reference_normalization_witness :
    pyStrip "http://x.com/a" = "http://x.com/a"
    ∧ normalize_image_reference "http://x.com/a" = "http://x.com/a" :=
  ⟨by decide, image_reference_normalization.2.2.2.2.2.2.2.2.2.2 "http://x.com/a"
    (by decide) (by decide) (by decide) (by decide) (by decide)⟩

/-- C8 (confirmed): the record mapper builds exactly one variant per
resolved size, each sharing the row's single color and selling price
(in general, the variants list is the size list mapped to
`{size, color, price}`); the concrete row with SKU `A1`, size cell
`"6,7"`, color `Red` and selling price `999` maps to exactly the two
variants `{6, Red, 999}` and `{7, Red, 999}`; a row with no resolved
sizes produces zero variants. -/
theorem mapper_one_variant_per_size :
    (∀ (row : Row) (im : List (String × String)),
      (build_product_from_bulk_row row im).variants
        = (build_product_from_bulk_row row im).sizes.map
            (fun s => Variant.mk s (build_product_from_bulk_row row im).color
              (build_product_from_bulk_row row im).price))
    ∧ (build_product_from_bulk_row (sampleRow "A1" "P" "6,7" "1000" "999") imR).variants
        = [Variant.mk "6" "Red" 999, Variant.mk "7" "Red" 999]
    ∧ (build_product_from_bulk_row [("SKU", "A1")] (headerIndexMap ["SKU"])).variants = [] := by
  refine ⟨?_, by decide, by decide⟩
  intro row im
  rcases h : extract_variant_sizes row im with _ | ⟨s, ss⟩ <;>
    simp [build_product_from_bulk_row, h]

/-- A complete row that also carries an image column with nine image
file names. -/
def rowNineImages : Row :=
  sampleRow "A1" "P" "6" "10" "9"
    ++ [("Image", "a1.jpg,a2.jpg,a3.jpg,a4.jpg,a5.jpg,a6.jpg,a7.jpg,a8.jpg,a9.jpg")]

/-- The header index map of a file with the required columns plus an
`Image` column. -/
def imNine : List (String × String) := headerIndexMap (BULK_REQUIRED_ATTRIBUTES ++ ["Image"])

/-- C9 (corrected), counterexample: a row resolving nine image
references produces a product record whose ordered image list `images`
has nine entries — more than 8 — while only the indexed `image_N`
slots are capped at eight. -/
theorem images_list_can_exceed_eight :
    (build_product_from_bulk_row rowNineImages imNine).images.length = 9
    ∧ ¬ ((build_product_from_bulk_row rowNineImages imNine).images.length ≤ 8)
    ∧ (build_product_from_bulk_row rowNineImages imNine).imageSlots.length = 8 := by
  decide

/-- C9 (amended): in every mapped product record the indexed image
slots hold the first eight entries of the resolved image list (hence at
most eight), the representative thumbnail `image_1` is the first
resolved image, and it falls back to the fixed placeholder when no
image resolved; the full `images` list itself is stored uncapped. -/
theorem image_slots_and_thumbnail :
    (∀ (row : Row) (im : List (String × String)),
      (build_product_from_bulk_row row im).imageSlots
          = (build_product_from_bulk_row row im).images.take 8
      ∧ (build_product_from_bulk_row row im).imageSlots.length ≤ 8
      ∧ (build_product_from_bulk_row row im).image_1
          = (build_product_from_bulk_row row im).images.headD PLACEHOLDER_IMAGE)
    ∧ (build_product_from_bulk_row [("SKU", "A1")] (headerIndexMap ["SKU"])).image_1
        = PLACEHOLDER_IMAGE := by
  refine ⟨?_, by decide⟩
  intro row im
  refine ⟨rfl, ?_, ?_⟩
  · show ((extract_image_data row im).1.take 8).length ≤ 8
    exact List.length_take_le 8 _
  · rcases h : (extract_image_data row im).1 with _ | ⟨u, us⟩ <;>
      simp [build_product_from_bulk_row, h]

/-- A complete row carrying SKU `A1` with product name `Old Shoe`. -/
def oldRowA1 : Row := sampleRow "A1" "Old Shoe" "6" "10" "9"

/-- A complete re-ingestion row for the same SKU `A1` with the new
product name `New Shoe`. -/
def newRowA1 : Row := sampleRow "A1" "New Shoe" "6" "10" "9"

/-- The catalog document created by ingesting `oldRowA1`. -/
def oldProductA1 : Product := build_product_from_bulk_row oldRowA1 imR

/-- C1 (corrected), counterexample: re-ingesting a complete row whose
SKU `A1` is already in the catalog makes `process_bulk_upload_file`
count the row as skipped with an `already exists` error — not as
updated — and leaves the stored product untouched: its name stays
`Old Shoe` instead of being overwritten with the row's `New Shoe`. -/
theorem reingest_existing_sku_skipped_not_updated :
    (process_bulk_upload_file [oldProductA1] BULK_REQUIRED_ATTRIBUTES [newRowA1])
      = (⟨true, ["Row 2: SKU \"A1\" already exists"], 0, 1⟩, [oldProductA1])
    ∧ oldProductA1.product_name = "Old Shoe"
    ∧ get_from_row newRowA1 imR "Product Name" = "New Shoe"
    ∧ ("Old Shoe" : String) ≠ "New Shoe" := by
  decide

theorem map_sku_update (products : List PgProduct) (p : Payload) (upd : PgProduct)
    (hupd : upd.sku = p.sku) :
    (products.map (fun pr => if pr.sku == p.sku then upd else pr)).map (fun pr => pr.sku)
      = products.map (fun pr => pr.sku) := by
  rw [List.map_map]
  apply List.map_congr_left
  intro pr _
  simp only [Function.comp]
  by_cases hb : pr.sku = p.sku
  · rw [if_pos (beq_iff_eq.mpr hb), hupd, hb]
  · rw [if_neg (by simp [hb])]

/-- C1 (amended): re-ingesting a SKU already present never creates a
duplicate, but the two engines treat the row differently.  In the
document-oriented engine a complete row whose SKU already exists is
counted as skipped (not updated) with an `already exists` error, the
stored product's fields are NOT overwritten, and the catalog — hence
its distinct-SKU count — is unchanged.  In the relational engine
`_upsert_product` reports the row as not-inserted (counted as updated
by `_persist`), overwrites the stored product's fields with the
payload's values, and leaves the SKU column — hence the distinct-SKU
count — unchanged. -/
theorem reingest_same_sku_never_duplicates :
    (∀ (catalog : List Product) (headers : List String) (row : Row),
      requiredMissingColumns headers = [] →
      missingRequiredValues row (headerIndexMap headers) = [] →
      (∃ p ∈ catalog, p.sku_id = get_from_row row (headerIndexMap headers) "SKU") →
      process_bulk_upload_file catalog headers [row]
        = (⟨true, [dupMsg 2 (get_from_row row (headerIndexMap headers) "SKU")], 0, 1⟩, catalog))
    ∧
    (∀ (st : PgState) (p : Payload) (cat : PgCategory) (old : PgProduct),
      st.categories.find? (fun c => c.slug == p.category_slug) = some cat →
      st.products.find? (fun pr => pr.sku == p.sku) = some old →
      ∃ st₂ : PgState,
        upsert_product st p = .ok (st₂, old.id, false)
        ∧ st₂.products.map (fun pr => pr.sku) = st.products.map (fun pr => pr.sku)
        ∧ (st₂.products.map (fun pr => pr.sku)).dedup.length
            = (st.products.map (fun pr => pr.sku)).dedup.length
        ∧ ∃ pr ∈ st₂.products, pr.sku = p.sku ∧ pr.name = p.name ∧ pr.mrp = p.mrp
            ∧ pr.selling_price = p.selling_price ∧ pr.category_id = cat.id
            ∧ pr.description = p.description) := by
  constructor
  · intro catalog headers row hhdr hrow hdup
    simp only [process_bulk_upload_file]
    rw [if_neg (by simp [hhdr])]
    have hd : (findBySku catalog
        (build_product_from_bulk_row row (headerIndexMap headers)).sku_id).isSome = true := by
      rw [build_sku_id, findBySku_isSome_iff]
      exact hdup
    rw [bulkLoop_cons_dup (headerIndexMap headers) catalog row [] 2 hrow hd]
    simp [bulkLoop, build_sku_id]
  · intro st p cat old hcat hold
    have hbeq : (old.sku == p.sku) = true := by
      have hpa := List.find?_some hold
      simpa using hpa
    have hsku : old.sku = p.sku := beq_iff_eq.mp hbeq
    have hmem : old ∈ st.products := List.mem_of_find?_eq_some hold
    simp only [upsert_product, hcat, hold]
    have hmap := map_sku_update st.products p
      ({ old with
        category_id := cat.id, name := p.name, description := p.description,
        brand := p.brand, hsn_code := p.hsn_code, mrp := p.mrp,
        selling_price := p.selling_price, currency := p.currency,
        primary_image_url := p.images.head? } : PgProduct) hsku
    refine ⟨_, rfl, hmap, congrArg (fun l => l.dedup.length) hmap, ?_⟩
    refine ⟨_, List.mem_map_of_mem _ hmem, ?_⟩
    rw [if_pos hbeq]
    exact ⟨hsku, rfl, rfl, rfl, rfl, rfl⟩

/-- The relational store holding the category `shoes` and a product
with SKU `A1`. -/
def rPgState : PgState :=
  ⟨[⟨1, "shoes"⟩], [⟨10, 1, "A1", "Old", none, none, none, 100, 90, "INR", none⟩], 11⟩

/-- A re-ingestion payload for SKU `A1` with new field values. -/
def rPayload : Payload := ⟨"A1", "New", "shoes", none, none, none, 120, 110, "INR", ["u.png"]⟩

/-- C1 witness: both clauses applied at concrete inputs. -/
theorem reingest_same_sku_never_duplicates_witness :
    requiredMissingColumns BULK_REQUIRED_ATTRIBUTES = []
    ∧ missingRequiredValues newRowA1 imR = []
    ∧ process_bulk_upload_file [oldProductA1] BULK_REQUIRED_ATTRIBUTES [newRowA1]
        = (⟨true, [dupMsg 2 (get_from_row newRowA1 imR "SKU")], 0, 1⟩, [oldProductA1])
    ∧ ∃ st₂ : PgState,
        upsert_product rPgState rPayload = .ok (st₂, 10, false)
        ∧ st₂.products.map (fun pr => pr.sku) = rPgState.products.map (fun pr => pr.sku) := by
  refine ⟨by decide, by decide, ?_, ?_⟩
  · exact reingest_same_sku_never_duplicates.1 [oldProductA1] BULK_REQUIRED_ATTRIBUTES newRowA1
      (by decide) (by decide) ⟨oldProductA1, by simp, by decide⟩
  · obtain ⟨st₂, h1, h2, _⟩ := reingest_same_sku_never_duplicates.2 rPgState rPayload
      ⟨1, "shoes"⟩ ⟨10, 1, "A1", "Old", none, none, none, 100, 90, "INR", none⟩
      (by decide) (by decide)
    exact ⟨st₂, h1, h2⟩

/-- C3 (confirmed): a data row missing required values is skipped with
one error naming its 1-based spreadsheet position (data row at list
position `i` is spreadsheet row `i + 2`, counting the header row) and
every missing attribute, and the run continues: with fresh, pairwise
distinct SKUs, every complete row before and after the bad row is still
persisted, so the report counts all of them created and exactly the one
bad row skipped. -/
theorem row_missing_values_isolated (catalog : List Product) (headers : List String)
    (pre post : List Row) (bad : Row)
    (hhdr : requiredMissingColumns headers = [])
    (hpre : ∀ r ∈ pre, missingRequiredValues r (headerIndexMap headers) = [])
    (hpost : ∀ r ∈ post, missingRequiredValues r (headerIndexMap headers) = [])
    (hbad : missingRequiredValues bad (headerIndexMap headers) ≠ [])
    (hfresh : ∀ r ∈ pre ++ post, ∀ p ∈ catalog,
        p.sku_id ≠ get_from_row r (headerIndexMap headers) "SKU")
    (hnodup : ((pre ++ post).map
        (fun r => get_from_row r (headerIndexMap headers) "SKU")).Nodup) :
    process_bulk_upload_file catalog headers (pre ++ bad :: post)
      = (⟨true,
          [missMsg (pre.length + 2) (missingRequiredValues bad (headerIndexMap headers))],
          pre.length + post.length, 1⟩,
         catalog ++ (pre ++ post).map
           (fun r => build_product_from_bulk_row r (headerIndexMap headers))) := by
  rw [List.map_append] at hnodup
  have hnpre := hnodup.of_append_left
  have hnpost := hnodup.of_append_right
  have hdisj := (List.nodup_append.mp hnodup).2.2
  simp only [process_bulk_upload_file]
  rw [if_neg (by simp [hhdr])]
  rw [bulkLoop_append (headerIndexMap headers) pre (bad :: post) catalog 2]
  have hpreRun := bulkLoop_all_complete_fresh (headerIndexMap headers) pre catalog 2 hpre
    (fun r hr => hfresh r (List.mem_append_left post hr)) hnpre
  rw [hpreRun]
  rw [bulkLoop_cons_miss (headerIndexMap headers) _ bad post (2 + pre.length) hbad]
  have hpostRun := bulkLoop_all_complete_fresh (headerIndexMap headers) post
    (catalog ++ pre.map (fun r => build_product_from_bulk_row r (headerIndexMap headers)))
    (2 + pre.length + 1) hpost
    (by
      intro r hr q hq
      rcases List.mem_append.mp hq with hq1 | hq2
      · exact hfresh r (List.mem_append_right pre hr) q hq1
      · obtain ⟨r2, hr2, hq3⟩ := List.mem_map.mp hq2
        rw [← hq3, build_sku_id]
        intro hEq
        exact hdisj (List.mem_map_of_mem _ hr2)
          (hEq ▸ List.mem_map_of_mem (fun r => get_from_row r (headerIndexMap headers) "SKU") hr))
    hnpost
  rw [hpostRun]
  simp only [combineLoopStates, List.length_nil, List.length_cons, List.nil_append,
    List.append_nil, List.map_append, List.append_assoc, Prod.mk.injEq, BulkResult.mk.injEq]
  and_intros <;> first | trivial | (rw [Nat.add_comm 2 pre.length])

/-- Data rows 1–4 of the ten-row batch (complete, distinct SKUs). -/
def preRows : List Row :=
  [sampleRow "S1" "P" "6" "10" "9", sampleRow "S2" "P" "6" "10" "9",
   sampleRow "S3" "P" "6" "10" "9", sampleRow "S4" "P" "6" "10" "9"]

/-- Data row 5 of the ten-row batch: its MRP cell is empty. -/
def badRow5 : Row := sampleRow "S5" "P" "6" "" "9"

/-- Data rows 6–10 of the ten-row batch (complete, distinct SKUs). -/
def postRows : List Row :=
  [sampleRow "S6" "P" "6" "10" "9", sampleRow "S7" "P" "6" "10" "9",
   sampleRow "S8" "P" "6" "10" "9", sampleRow "S9" "P" "6" "10" "9",
   sampleRow "S10" "P" "6" "10" "9"]

/-- C3 witness: the ten-row batch in which only data row 5 is missing
MRP reports created = 9, skipped = 1, and the single error message
references spreadsheet row 6 and names MRP. -/
theorem row_missing_values_isolated_witness :
    missingRequiredValues badRow5 imR = ["MRP"]
    ∧ process_bulk_upload_file [] BULK_REQUIRED_ATTRIBUTES (preRows ++ badRow5 :: postRows)
        = (⟨true, ["Row 6: missing value(s) in MRP"], 9, 1⟩,
           (preRows ++ postRows).map (fun r => build_product_from_bulk_row r imR)) := by
  constructor
  · decide
  · have h := row_missing_values_isolated [] BULK_REQUIRED_ATTRIBUTES preRows postRows badRow5
      (by decide) (by decide) (by decide) (by decide) (by decide) (by decide)
    rw [h]
    refine Prod.ext ?_ (by simp [imR])
    decide

/-- C10 (confirmed): whenever structural validation passes, the
document-oriented row loop counts every data row exactly once —
created plus skipped equals the number of rows read — and emits
exactly one error string per skipped row (created rows contribute
none), so the error count equals the skipped count. -/
theorem report_counts_consistent (catalog : List Product) (headers : List String)
    (rows : List Row) (h : requiredMissingColumns headers = []) :
    (process_bulk_upload_file catalog headers rows).1.created
      + (process_bulk_upload_file catalog headers rows).1.skipped = rows.length
    ∧ (process_bulk_upload_file catalog headers rows).1.errors.length
      = (process_bulk_upload_file catalog headers rows).1.skipped := by
  simp only [process_bulk_upload_file]
  rw [if_neg (by simp [h])]
  exact bulkLoop_counts (headerIndexMap headers) rows catalog 2

/-- C10 witness: a two-row batch (one complete row, one row missing
MRP) has created + skipped = 2 and one error string for its one
skipped row. -/
theorem report_counts_consistent_witness :
    requiredMissingColumns BULK_REQUIRED_ATTRIBUTES = []
    ∧ ((process_bulk_upload_file [] BULK_REQUIRED_ATTRIBUTES
          [sampleRow "S1" "P" "6" "10" "9", badRow5]).1.created
        + (process_bulk_upload_file [] BULK_REQUIRED_ATTRIBUTES
          [sampleRow "S1" "P" "6" "10" "9", badRow5]).1.skipped
        = [sampleRow "S1" "P" "6" "10" "9", badRow5].length
      ∧ (process_bulk_upload_file [] BULK_REQUIRED_ATTRIBUTES
          [sampleRow "S1" "P" "6" "10" "9", badRow5]).1.errors.length
        = (process_bulk_upload_file [] BULK_REQUIRED_ATTRIBUTES
          [sampleRow "S1" "P" "6" "10" "9", badRow5]).1.skipped) :=
  ⟨by decide, report_counts_consistent [] BULK_REQUIRED_ATTRIBUTES
    [sampleRow "S1" "P" "6" "10" "9", badRow5] (by decide)⟩
